import Mathlib

set_option linter.unusedVariables false

/-!
Verification of the node-execution engine of the AI Call Flow Builder
backend (`src/backend/main.py`).

The embedding below translates the execution path of `execute_node`, the
`ConnectionManager` (subscriber registry and broadcast fanout), and the
Redis result cache into Lean.  Python dictionaries are modelled as
association lists, JSON values by the inductive `Value`, websocket
handles by natural numbers, and wall-clock time by a natural-number
clock `now`.  Nondeterministic fresh identifiers (`uuid.uuid4()`) are
passed in as an explicit `uuid : String` parameter.  Event and cache
timestamps (`datetime.now().isoformat()`), which no claim consults, are
not carried.
-/

namespace CallFlow

/-- JSON-like values stored in a node's `data` dictionary, with Python
truthiness.  Floats do not occur in any consulted configuration key. -/
inductive Value where
  | vNull
  | vBool (b : Bool)
  | vInt (n : Int)
  | vStr (s : String)
deriving DecidableEq

/-- Python truthiness (`if not flow_id:`): `None`, `False`, `0` and `""`
are falsy, everything else is truthy. -/
def Value.truthy : Value → Bool
  | Value.vNull => false
  | Value.vBool b => b
  | Value.vInt n => decide (n ≠ 0)
  | Value.vStr s => decide (s ≠ "")

/-- Python `dict.get(k)`: the value at the first matching key, if any. -/
def dictGetOpt (d : List (String × Value)) (k : String) : Option Value :=
  (d.find? (fun p => p.1 == k)).map Prod.snd

/-- Python `dict.get(k, dflt)`. -/
def dictGet (d : List (String × Value)) (k : String) (dflt : Value) : Value :=
  (dictGetOpt d k).getD dflt

/-- Removes a key from a configuration dictionary (used to compare a
config that has a falsy `flowId` with the same config lacking it). -/
def stripKey (d : List (String × Value)) (k : String) : List (String × Value) :=
  d.filter (fun p => !(p.1 == k))

/-- A node of a workflow (`class Node`): identity, a `type` tag and a
free-form configuration dictionary `data`.  The 2-D layout `position`
is never read by the engine and is not carried. -/
structure Node where
  id : String
  type : String
  data : List (String × Value)
deriving DecidableEq

/-- An edge (`class Edge`); never consulted by single-node execution. -/
structure Edge where
  id : String
  source : String
  target : String
  sourceHandle : Option String
  targetHandle : Option String
deriving DecidableEq

/-- A workflow document (`class Workflow`); creation/update timestamps
are wall-clock metadata the engine never reads and are not carried. -/
structure Workflow where
  id : String
  name : String
  nodes : List Node
  edges : List Edge
deriving DecidableEq

/-- The workflow store: `db.workflows.find_one({"id": workflow_id})`
returns the first stored document whose `id` field matches. -/
def findWorkflow (db : List Workflow) (wid : String) : Option Workflow :=
  db.find? (fun w => w.id == wid)

/-- Node lookup inside a workflow:
`next((n for n in workflow["nodes"] if n["id"] == node_id), None)`. -/
def findNode (w : Workflow) (nid : String) : Option Node :=
  w.nodes.find? (fun n => n.id == nid)

/-- The type-specific result payloads built by the executor branches of
`execute_node`. -/
inductive NodeResult where
  | startCall (call_sid status from_number to_number : String)
  | playAudio (audio_id : String) (message : Value) (status : String)
  | aiNode (response : String) (confidence : ℚ) (intent : String)
  | endCall (status : String) (duration : Nat) (outcome : String)
deriving DecidableEq

/-- The step-executor dispatch of `execute_node` (the `if/elif` chain on
`node["type"]`): maps the node type, its `data` config, the request's
`input_data` (unused by every simulated executor) and a fresh `uuid` to
either a raised error message (Python `raise ValueError`) or a result
(possibly `None`, for an unrecognized type) together with the simulated
delay in time units (`asyncio.sleep`). -/
def runExecutor (nodeType : String) (data : List (String × Value))
    (input_data : List (String × Value)) (uuid : String) :
    Except String (Option NodeResult × Nat) :=
  if nodeType == "startCall" then
    Except.ok (some (NodeResult.startCall ("CA" ++ uuid) "initiated"
      "+15551234567" "+15559876543"), 0)
  else if nodeType == "playAudio" then
    Except.ok (some (NodeResult.playAudio ("audio_" ++ uuid)
      (dictGet data "audioMessage" (Value.vStr "Hello, this is a default message."))
      "generated"), 1)
  else if nodeType == "aiNode" then
    if Value.truthy ((dictGetOpt data "flowId").getD Value.vNull) then
      Except.ok (some (NodeResult.aiNode "This is a simulated AI response"
        ((95 : ℚ) / 100) "greeting"), 2)
    else
      Except.error "No flow ID specified for AI Node"
  else if nodeType == "endCall" then
    Except.ok (some (NodeResult.endCall "completed" 120 "success"), 0)
  else
    Except.ok (none, 0)

/-- The events `execute_node` broadcasts on the workflow channel, with
the literal `status` label from the corresponding JSON message.  The
ISO timestamp field is wall-clock metadata and is not carried. -/
inductive Event where
  | start (workflow_id node_id status : String)
  | complete (workflow_id node_id status : String) (result : Option NodeResult)
  | error (workflow_id node_id status : String) (msg : String)
deriving DecidableEq

/-- The Redis result cache: key to (stored result payload, absolute
expiry time).  The stored JSON also carries a write timestamp, which no
claim consults. -/
abbrev Cache := List (String × (Option NodeResult × Nat))

/-- Redis `SETEX key ttl value` at clock `now`: stores the value with
absolute expiry `now + ttl`, overwriting any prior entry for the key. -/
def setex (c : Cache) (key : String) (ttl : Nat) (v : Option NodeResult)
    (now : Nat) : Cache :=
  (key, (v, now + ttl)) :: c.filter (fun p => !(p.1 == key))

/-- The raw cache entry for a key (payload and absolute expiry). -/
def cacheLookup (c : Cache) (key : String) : Option (Option NodeResult × Nat) :=
  (c.find? (fun p => p.1 == key)).map Prod.snd

/-- Modelled from the spec: the Redis `GET` read-back of a key written
with `SETEX` is not part of `src/backend/main.py` (Redis is an external
collaborator); section 4.1 of the spec gives its contract — return the
payload while the entry is unexpired, and a miss (`none`), distinct
from an error, afterwards. -/
def cacheGet (c : Cache) (key : String) (t : Nat) : Option (Option NodeResult) :=
  match cacheLookup c key with
  | none => none
  | some (v, expiry) => if t < expiry then some v else none

/-- The outcome of one `execute_node` call: a success body
`{"success": True, "data": result}` (the result may be `None`), a
failure body `{"success": False, "error": error}`, or a raised
`HTTPException(404, detail)` — the NotFound failure channel used before
any event is published. -/
inductive Outcome where
  | ok (result : Option NodeResult)
  | fail (error : String)
  | notFound (detail : String)
deriving DecidableEq

/-- Whether the outcome is the `success: true` body. -/
def Outcome.isSuccess : Outcome → Bool
  | Outcome.ok _ => true
  | _ => false

/-- The result payload carried by a success outcome, if any. -/
def Outcome.resultOf : Outcome → Option NodeResult
  | Outcome.ok r => r
  | _ => none

/-- Everything one `execute_node` call produces: the returned outcome,
the events broadcast on the workflow channel in publish order, the
cache after the call, and the total simulated delay in time units. -/
structure ExecResult where
  outcome : Outcome
  events : List Event
  cache : Cache
  delay : Nat
deriving DecidableEq

/-- The `POST /api/execute/node/{node_id}` handler `execute_node`:
resolve the workflow (404 before any event on a miss), resolve the node
(likewise), broadcast the start event, run the matching executor inside
the `try`, and either cache the result for 3600 seconds and broadcast
the complete event, or catch the raised error and broadcast the error
event.  Metric increments and the Sentry/log calls are writes to
external sinks and are not carried. -/
def execute_node (db : List Workflow) (cache : Cache) (workflow_id node_id : String)
    (input_data : List (String × Value)) (uuid : String) (now : Nat) : ExecResult :=
  match findWorkflow db workflow_id with
  | none => ExecResult.mk (Outcome.notFound "Workflow not found") [] cache 0
  | some w =>
    match findNode w node_id with
    | none => ExecResult.mk (Outcome.notFound "Node not found") [] cache 0
    | some node =>
      match runExecutor node.type node.data input_data uuid with
      | Except.error msg =>
        ExecResult.mk (Outcome.fail msg)
          [Event.start workflow_id node_id "running",
           Event.error workflow_id node_id "error" msg]
          cache 0
      | Except.ok (res, d) =>
        ExecResult.mk (Outcome.ok res)
          [Event.start workflow_id node_id "running",
           Event.complete workflow_id node_id "completed" res]
          (setex cache ("node_result:" ++ node_id) 3600 res now) d

/-- The ConnectionManager's registry `active_connections`: workflow ID
to the list of live websocket handles, in connection order. -/
abbrev Registry := List (String × List Nat)

/-- Python `workflow_id in active_connections` plus the indexed read:
the subscriber list for a workflow, if the key is present. -/
def lookupReg (reg : Registry) (wid : String) : Option (List Nat) :=
  (reg.find? (fun p => p.1 == wid)).map Prod.snd

/-- The subscribers a broadcast to `wid` reaches (empty when the key is
absent). -/
def subsOf (reg : Registry) (wid : String) : List Nat :=
  (lookupReg reg wid).getD []

/-- Replaces the subscriber list stored under a key (in-place dict
entry update). -/
def regUpdate (reg : Registry) (wid : String) (subs : List Nat) : Registry :=
  reg.map (fun p => if p.1 == wid then (p.1, subs) else p)

/-- Python `list.remove(x)`: removes the first occurrence of `x`, and
raises `ValueError` when `x` is not in the list. -/
def listRemove (l : List Nat) (x : Nat) : Except String (List Nat) :=
  if x ∈ l then Except.ok (l.erase x) else
    Except.error "ValueError: list.remove(x): x not in list"

/-- `ConnectionManager.disconnect`: a no-op when the workflow ID has no
registry entry; otherwise `active_connections[workflow_id].remove(ws)`,
which raises `ValueError` when the handle is not in the list.  The
workflow's entry is never deleted, even when its list becomes empty. -/
def disconnect (reg : Registry) (ws : Nat) (wid : String) : Except String Registry :=
  match lookupReg reg wid with
  | none => Except.ok reg
  | some subs =>
    match listRemove subs ws with
    | Except.error e => Except.error e
    | Except.ok subs2 => Except.ok (regUpdate reg wid subs2)

/-- `ConnectionManager.broadcast_to_workflow`: one delivery per current
subscriber of the workflow, in registration order; a broadcast to a
workflow with no registry entry delivers nothing. -/
def broadcast_to_workflow (reg : Registry) (wid : String) (e : Event) :
    List (Nat × Event) :=
  match lookupReg reg wid with
  | none => []
  | some conns => conns.map (fun c => (c, e))

/-- Concatenation of delivery blocks. -/
def concatAll : List (List (Nat × Event)) → List (Nat × Event)
  | [] => []
  | l :: ls => l ++ concatAll ls

/-- All deliveries an execution's published events cause, in order: each
event is broadcast to the workflow's subscribers when it is published. -/
def execDeliveries (reg : Registry) (wid : String) (r : ExecResult) :
    List (Nat × Event) :=
  concatAll (r.events.map (fun e => broadcast_to_workflow reg wid e))

/-- The stream of events one subscriber receives, in delivery order. -/
def subscriberStream (ds : List (Nat × Event)) (s : Nat) : List Event :=
  (ds.filter (fun p => p.1 == s)).map Prod.snd

/-- The type-specific result shape of section 4.3 of the spec, as a
predicate on a result payload: literal status labels, the fixed
placeholder phone numbers, response, confidence and intent, the fixed
call duration and outcome. -/
def matchesShape (t : String) (r : NodeResult) : Bool :=
  match t, r with
  | "startCall", NodeResult.startCall _ status f to_ =>
    status == "initiated" && f == "+15551234567" && to_ == "+15559876543"
  | "playAudio", NodeResult.playAudio _ _ status => status == "generated"
  | "aiNode", NodeResult.aiNode response confidence intent =>
    response == "This is a simulated AI response" &&
      decide (confidence = (95 : ℚ) / 100) && intent == "greeting"
  | "endCall", NodeResult.endCall status duration outcome =>
    status == "completed" && duration == 120 && outcome == "success"
  | _, _ => false

/-- Whether a success outcome carries a result of the type's shape. -/
def shapeOk (t : String) (o : Outcome) : Bool :=
  match o with
  | Outcome.ok (some r) => matchesShape t r
  | _ => false

/-- Timed model of the fanout loop of
`ConnectionManager.broadcast_to_workflow`: the loop awaits each
subscriber's `send_json` in turn, so with per-subscriber send times
`costs` the publisher resumes only after all sends finish — after
`costs.sum` time units. -/
def broadcastFinishTime (costs : List Nat) : Nat := costs.sum

/-- Timed model, continued: subscriber `i`'s delivery completes only
after the sends to all earlier subscribers in the loop, at the sum of
the first `i + 1` send times. -/
def broadcastDeliveryTime (costs : List Nat) (i : Nat) : Nat :=
  (costs.take (i + 1)).sum

/-! Concrete fixtures used by the closed witness theorems. -/

/-- Fixture: a playAudio node with an explicit audioMessage. -/
def nodePlay : Node := Node.mk "n1" "playAudio" [("audioMessage", Value.vStr "Hi")]

/-- Fixture: an endCall node. -/
def nodeEnd : Node := Node.mk "n2" "endCall" []

/-- Fixture: an aiNode whose config lacks a flowId key. -/
def nodeAi : Node := Node.mk "n3" "aiNode" []

/-- Fixture: an aiNode whose flowId is present but the empty string. -/
def nodeAiEmpty : Node := Node.mk "n4" "aiNode" [("flowId", Value.vStr "")]

/-- Fixture: a node whose type matches no executor branch. -/
def nodeMystery : Node := Node.mk "n5" "mysteryType" []

/-- Fixture: a workflow holding the five fixture nodes. -/
def wf1 : Workflow := Workflow.mk "w1" "demo"
  [nodePlay, nodeEnd, nodeAi, nodeAiEmpty, nodeMystery] []

/-- Fixture: a store holding the fixture workflow. -/
def db1 : List Workflow := [wf1]

/-- Fixture: one subscriber, handle 7, registered for workflow w1. -/
def reg1 : Registry := [("w1", [7])]

/-! Helper lemmas about fanout, the cache and configuration lookup. -/

/-- Filtering one subscriber out of one broadcast block yields one copy
of the event per occurrence of the handle in the subscriber list. -/
theorem filter_map_pair (subs : List Nat) (e : Event) (s : Nat) :
    ((subs.map (fun c => (c, e))).filter (fun p => p.1 == s)).map Prod.snd
      = List.replicate (subs.count s) e := by
  induction subs with
  | nil => rfl
  | cons a t ih =>
    by_cases h : a = s
    · subst h
      simp [List.count_cons, ih, List.replicate_succ]
    · simp [List.count_cons, h, ih, Ne.symm h]

/-- A subscriber's stream distributes over concatenated deliveries. -/
theorem subscriberStream_append (ds1 ds2 : List (Nat × Event)) (s : Nat) :
    subscriberStream (ds1 ++ ds2) s
      = subscriberStream ds1 s ++ subscriberStream ds2 s := by
  simp [subscriberStream, List.filter_append]

/-- A subscriber's stream from one broadcast block is one copy of the
event per occurrence of the handle among the workflow's subscribers. -/
theorem subscriberStream_broadcast (reg : Registry) (wid : String) (e : Event)
    (s : Nat) :
    subscriberStream (broadcast_to_workflow reg wid e) s
      = List.replicate ((subsOf reg wid).count s) e := by
  unfold broadcast_to_workflow subsOf
  cases h : lookupReg reg wid with
  | none => simp [subscriberStream]
  | some conns => simp [subscriberStream, filter_map_pair]

/-- A handle registered exactly once for a workflow receives exactly the
published event list, in publish order. -/
theorem subscriberStream_execDeliveries (reg : Registry) (wid : String)
    (r : ExecResult) (s : Nat) (h : (subsOf reg wid).count s = 1) :
    subscriberStream (execDeliveries reg wid r) s = r.events := by
  unfold execDeliveries
  induction r.events with
  | nil => rfl
  | cons e es ih =>
    simp only [List.map_cons, concatAll, subscriberStream_append,
      subscriberStream_broadcast, h, List.replicate_one, ih]
    rfl

/-- `SETEX` leaves the written key's raw entry at the written payload
with absolute expiry `now + ttl`, whatever was stored before. -/
theorem cacheLookup_setex (c : Cache) (key : String) (ttl : Nat)
    (v : Option NodeResult) (now : Nat) :
    cacheLookup (setex c key ttl v now) key = some (v, now + ttl) := by
  simp [cacheLookup, setex, List.find?_cons]

/-- Stripping a key from a configuration makes its lookup miss. -/
theorem dictGetOpt_stripKey (d : List (String × Value)) (k : String) :
    dictGetOpt (stripKey d k) k = none := by
  unfold dictGetOpt stripKey
  induction d with
  | nil => rfl
  | cons p t ih =>
    by_cases h : p.1 = k
    · simp [h]
    · simp [h]

/-! Claim theorems. -/

/-- C1: Execute on a workflow ID absent from the store, or on a node ID
absent from that workflow's node list, returns a non-success NotFound
outcome ("Workflow not found" resp. "Node not found"), publishes no
event, and delivers nothing to any subscriber of the workflow. -/
theorem execute_node_absent_notFound (db : List Workflow) (cache : Cache)
    (reg : Registry) (wid nid uuid : String) (inp : List (String × Value))
    (now : Nat)
    (h : findWorkflow db wid = none ∨
      ∃ w, findWorkflow db wid = some w ∧ findNode w nid = none) :
    Outcome.isSuccess (execute_node db cache wid nid inp uuid now).outcome = false ∧
    ((execute_node db cache wid nid inp uuid now).outcome
        = Outcome.notFound "Workflow not found" ∨
      (execute_node db cache wid nid inp uuid now).outcome
        = Outcome.notFound "Node not found") ∧
    (execute_node db cache wid nid inp uuid now).events = [] ∧
    execDeliveries reg wid (execute_node db cache wid nid inp uuid now) = [] := by
  rcases h with h | ⟨w, hw, hn⟩
  · simp [execute_node, h, Outcome.isSuccess, execDeliveries, concatAll]
  · simp [execute_node, hw, hn, Outcome.isSuccess, execDeliveries, concatAll]

/-- Witness for C1: the empty store at concrete arguments. -/
theorem execute_node_absent_notFound_witness :
    (findWorkflow [] "w1" = none ∨
      ∃ w, findWorkflow [] "w1" = some w ∧ findNode w "n1" = none) ∧
    (Outcome.isSuccess (execute_node [] [] "w1" "n1" [] "u" 0).outcome = false ∧
      ((execute_node [] [] "w1" "n1" [] "u" 0).outcome
          = Outcome.notFound "Workflow not found" ∨
        (execute_node [] [] "w1" "n1" [] "u" 0).outcome
          = Outcome.notFound "Node not found") ∧
      (execute_node [] [] "w1" "n1" [] "u" 0).events = [] ∧
      execDeliveries reg1 "w1" (execute_node [] [] "w1" "n1" [] "u" 0) = []) :=
  ⟨Or.inl rfl,
    execute_node_absent_notFound [] [] reg1 "w1" "n1" "u" [] 0 (Or.inl rfl)⟩

/-- C2: an aiNode whose config lacks a truthy flowId fails with
"No flow ID specified for AI Node", publishes exactly Start then Error
(no Complete), delivers exactly those two events to each subscriber of
the workflow, and leaves the result cache unchanged. -/
theorem execute_aiNode_missing_flowId (db : List Workflow) (cache : Cache)
    (reg : Registry) (wid nid uuid : String) (inp : List (String × Value))
    (now : Nat) (w : Workflow) (node : Node) (s : Nat)
    (hw : findWorkflow db wid = some w) (hn : findNode w nid = some node)
    (ht : node.type = "aiNode")
    (hf : Value.truthy ((dictGetOpt node.data "flowId").getD Value.vNull) = false)
    (hs : (subsOf reg wid).count s = 1) :
    (execute_node db cache wid nid inp uuid now).outcome
      = Outcome.fail "No flow ID specified for AI Node" ∧
    (execute_node db cache wid nid inp uuid now).events
      = [Event.start wid nid "running",
         Event.error wid nid "error" "No flow ID specified for AI Node"] ∧
    (execute_node db cache wid nid inp uuid now).cache = cache ∧
    subscriberStream
        (execDeliveries reg wid (execute_node db cache wid nid inp uuid now)) s
      = [Event.start wid nid "running",
         Event.error wid nid "error" "No flow ID specified for AI Node"] := by
  have hrun : runExecutor node.type node.data inp uuid
      = Except.error "No flow ID specified for AI Node" := by
    rw [ht]
    simp [runExecutor, hf]
  have hev : (execute_node db cache wid nid inp uuid now).events
      = [Event.start wid nid "running",
         Event.error wid nid "error" "No flow ID specified for AI Node"] := by
    simp [execute_node, hw, hn, hrun]
  refine ⟨?_, hev, ?_, ?_⟩
  · simp [execute_node, hw, hn, hrun]
  · simp [execute_node, hw, hn, hrun]
  · rw [subscriberStream_execDeliveries reg wid _ s hs, hev]

/-- Witness for C2: the fixture aiNode with no flowId key, observed by
the single registered subscriber. -/
theorem execute_aiNode_missing_flowId_witness :
    (findWorkflow db1 "w1" = some wf1 ∧ findNode wf1 "n3" = some nodeAi ∧
      nodeAi.type = "aiNode" ∧
      Value.truthy ((dictGetOpt nodeAi.data "flowId").getD Value.vNull) = false ∧
      (subsOf reg1 "w1").count 7 = 1) ∧
    ((execute_node db1 [] "w1" "n3" [] "u" 0).outcome
        = Outcome.fail "No flow ID specified for AI Node" ∧
      (execute_node db1 [] "w1" "n3" [] "u" 0).events
        = [Event.start "w1" "n3" "running",
           Event.error "w1" "n3" "error" "No flow ID specified for AI Node"] ∧
      (execute_node db1 [] "w1" "n3" [] "u" 0).cache = [] ∧
      subscriberStream
          (execDeliveries reg1 "w1" (execute_node db1 [] "w1" "n3" [] "u" 0)) 7
        = [Event.start "w1" "n3" "running",
           Event.error "w1" "n3" "error" "No flow ID specified for AI Node"]) :=
  ⟨⟨rfl, rfl, rfl, rfl, rfl⟩,
    execute_aiNode_missing_flowId db1 [] reg1 "w1" "n3" "u" [] 0 wf1 nodeAi 7
      rfl rfl rfl rfl rfl⟩

/-- C3: for every known, validly configured node type (startCall,
playAudio, aiNode with a truthy flowId, endCall), Execute succeeds with
the type-specific result shape and publishes exactly one Start event
(status "running") followed by exactly one Complete event (status
"completed", carrying the result), which is precisely the stream each
subscriber registered before the call receives, in that order. -/
theorem execute_known_type_success (db : List Workflow) (cache : Cache)
    (reg : Registry) (wid nid uuid : String) (inp : List (String × Value))
    (now : Nat) (w : Workflow) (node : Node) (s : Nat)
    (hw : findWorkflow db wid = some w) (hn : findNode w nid = some node)
    (hs : (subsOf reg wid).count s = 1)
    (hk : node.type = "startCall" ∨ node.type = "playAudio" ∨
      (node.type = "aiNode" ∧
        Value.truthy ((dictGetOpt node.data "flowId").getD Value.vNull) = true) ∨
      node.type = "endCall") :
    Outcome.isSuccess (execute_node db cache wid nid inp uuid now).outcome = true ∧
    shapeOk node.type (execute_node db cache wid nid inp uuid now).outcome = true ∧
    (execute_node db cache wid nid inp uuid now).events
      = [Event.start wid nid "running",
         Event.complete wid nid "completed"
           (Outcome.resultOf (execute_node db cache wid nid inp uuid now).outcome)] ∧
    subscriberStream
        (execDeliveries reg wid (execute_node db cache wid nid inp uuid now)) s
      = (execute_node db cache wid nid inp uuid now).events := by
  have hstream := subscriberStream_execDeliveries reg wid
    (execute_node db cache wid nid inp uuid now) s hs
  rcases hk with ht | ht | ⟨ht, hf⟩ | ht
  · refine ⟨?_, ?_, ?_, hstream⟩ <;>
      simp [execute_node, hw, hn, ht, runExecutor, Outcome.isSuccess,
        Outcome.resultOf, shapeOk, matchesShape]
  · refine ⟨?_, ?_, ?_, hstream⟩ <;>
      simp [execute_node, hw, hn, ht, runExecutor, Outcome.isSuccess,
        Outcome.resultOf, shapeOk, matchesShape]
  · refine ⟨?_, ?_, ?_, hstream⟩ <;>
      simp [execute_node, hw, hn, ht, hf, runExecutor, Outcome.isSuccess,
        Outcome.resultOf, shapeOk, matchesShape]
  · refine ⟨?_, ?_, ?_, hstream⟩ <;>
      simp [execute_node, hw, hn, ht, runExecutor, Outcome.isSuccess,
        Outcome.resultOf, shapeOk, matchesShape]

/-- Witness for C3: the fixture playAudio node, observed by the single
registered subscriber. -/
theorem execute_known_type_success_witness :
    (findWorkflow db1 "w1" = some wf1 ∧ findNode wf1 "n1" = some nodePlay ∧
      (subsOf reg1 "w1").count 7 = 1 ∧ nodePlay.type = "playAudio") ∧
    (Outcome.isSuccess (execute_node db1 [] "w1" "n1" [] "u" 0).outcome = true ∧
      shapeOk nodePlay.type (execute_node db1 [] "w1" "n1" [] "u" 0).outcome = true ∧
      (execute_node db1 [] "w1" "n1" [] "u" 0).events
        = [Event.start "w1" "n1" "running",
           Event.complete "w1" "n1" "completed"
             (Outcome.resultOf (execute_node db1 [] "w1" "n1" [] "u" 0).outcome)] ∧
      subscriberStream
          (execDeliveries reg1 "w1" (execute_node db1 [] "w1" "n1" [] "u" 0)) 7
        = (execute_node db1 [] "w1" "n1" [] "u" 0).events) :=
  ⟨⟨rfl, rfl, rfl, rfl⟩,
    execute_known_type_success db1 [] reg1 "w1" "n1" "u" [] 0 wf1 nodePlay 7
      rfl rfl rfl (Or.inr (Or.inl rfl))⟩

/-- C4: a node whose type matches no executor branch still yields a
success outcome whose data payload is empty (None), not a failure. -/
theorem execute_unknown_type_success (db : List Workflow) (cache : Cache)
    (wid nid uuid : String) (inp : List (String × Value)) (now : Nat)
    (w : Workflow) (node : Node)
    (hw : findWorkflow db wid = some w) (hn : findNode w nid = some node)
    (h1 : node.type ≠ "startCall") (h2 : node.type ≠ "playAudio")
    (h3 : node.type ≠ "aiNode") (h4 : node.type ≠ "endCall") :
    (execute_node db cache wid nid inp uuid now).outcome = Outcome.ok none ∧
    Outcome.isSuccess (execute_node db cache wid nid inp uuid now).outcome = true := by
  have hrun : runExecutor node.type node.data inp uuid = Except.ok (none, 0) := by
    simp [runExecutor, h1, h2, h3, h4]
  simp [execute_node, hw, hn, hrun, Outcome.isSuccess]

/-- Witness for C4: the fixture node of type "mysteryType". -/
theorem execute_unknown_type_success_witness :
    (findWorkflow db1 "w1" = some wf1 ∧ findNode wf1 "n5" = some nodeMystery ∧
      nodeMystery.type ≠ "startCall" ∧ nodeMystery.type ≠ "playAudio" ∧
      nodeMystery.type ≠ "aiNode" ∧ nodeMystery.type ≠ "endCall") ∧
    ((execute_node db1 [] "w1" "n5" [] "u" 0).outcome = Outcome.ok none ∧
      Outcome.isSuccess (execute_node db1 [] "w1" "n5" [] "u" 0).outcome = true) :=
  ⟨⟨rfl, rfl, by decide, by decide, by decide, by decide⟩,
    execute_unknown_type_success db1 [] "w1" "n5" "u" [] 0 wf1 nodeMystery
      rfl rfl (by decide) (by decide) (by decide) (by decide)⟩

/-- C5: a playAudio node succeeds with the config's audioMessage as the
result message (defaulting to "Hello, this is a default message." when
the key is absent), a synthetic audio identifier derived from the fresh
uuid, status "generated", and a simulated delay of 1 time unit. -/
theorem execute_playAudio_result (db : List Workflow) (cache : Cache)
    (wid nid uuid : String) (inp : List (String × Value)) (now : Nat)
    (w : Workflow) (node : Node)
    (hw : findWorkflow db wid = some w) (hn : findNode w nid = some node)
    (ht : node.type = "playAudio") :
    (execute_node db cache wid nid inp uuid now).outcome
      = Outcome.ok (some (NodeResult.playAudio ("audio_" ++ uuid)
          (dictGet node.data "audioMessage"
            (Value.vStr "Hello, this is a default message.")) "generated")) ∧
    (execute_node db cache wid nid inp uuid now).delay = 1 := by
  have hrun : runExecutor node.type node.data inp uuid
      = Except.ok (some (NodeResult.playAudio ("audio_" ++ uuid)
          (dictGet node.data "audioMessage"
            (Value.vStr "Hello, this is a default message.")) "generated"), 1) := by
    rw [ht]; simp [runExecutor]
  simp [execute_node, hw, hn, hrun]

/-- Witness for C5: the fixture playAudio node with audioMessage "Hi"
yields message "Hi" and status "generated". -/
theorem execute_playAudio_result_witness :
    (findWorkflow db1 "w1" = some wf1 ∧ findNode wf1 "n1" = some nodePlay ∧
      nodePlay.type = "playAudio") ∧
    ((execute_node db1 [] "w1" "n1" [] "u" 0).outcome
        = Outcome.ok (some (NodeResult.playAudio "audio_u" (Value.vStr "Hi")
            "generated")) ∧
      (execute_node db1 [] "w1" "n1" [] "u" 0).delay = 1) :=
  ⟨⟨rfl, rfl, rfl⟩,
    execute_playAudio_result db1 [] "w1" "n1" "u" [] 0 wf1 nodePlay rfl rfl rfl⟩

/-- C6: every successful Execute stores its result payload under the
key for that node ID with absolute expiry now + 3600 (a TTL of exactly
3600 seconds), overwriting any prior entry; a Get on that key returns
the same payload while fewer than 3600 time units have elapsed and a
miss (not an error) afterwards. -/
theorem execute_success_caches (db : List Workflow) (cache : Cache)
    (wid nid uuid : String) (inp : List (String × Value)) (now t : Nat)
    (res : Option NodeResult)
    (h : (execute_node db cache wid nid inp uuid now).outcome = Outcome.ok res) :
    cacheLookup (execute_node db cache wid nid inp uuid now).cache
        ("node_result:" ++ nid) = some (res, now + 3600) ∧
    cacheGet (execute_node db cache wid nid inp uuid now).cache
        ("node_result:" ++ nid) t
      = if t < now + 3600 then some res else none := by
  cases hfw : findWorkflow db wid with
  | none => simp [execute_node, hfw] at h
  | some w =>
    cases hfn : findNode w nid with
    | none => simp [execute_node, hfw, hfn] at h
    | some node =>
      cases hrun : runExecutor node.type node.data inp uuid with
      | error msg => simp [execute_node, hfw, hfn, hrun] at h
      | ok p =>
        obtain ⟨r0, d0⟩ := p
        have hr : r0 = res := by
          simpa [execute_node, hfw, hfn, hrun] using h
        subst hr
        constructor
        · simp [execute_node, hfw, hfn, hrun, cacheLookup_setex]
        · simp [execute_node, hfw, hfn, hrun, cacheGet, cacheLookup_setex]

/-- Witness for C6: the fixture endCall node at clock 0, read back at
the expiry instant 3600 (a miss, since 3600 < 0 + 3600 is false). -/
theorem execute_success_caches_witness :
    ((execute_node db1 [] "w1" "n2" [] "u" 0).outcome
        = Outcome.ok (some (NodeResult.endCall "completed" 120 "success"))) ∧
    (cacheLookup (execute_node db1 [] "w1" "n2" [] "u" 0).cache "node_result:n2"
        = some (some (NodeResult.endCall "completed" 120 "success"), 0 + 3600) ∧
      cacheGet (execute_node db1 [] "w1" "n2" [] "u" 0).cache "node_result:n2" 3600
        = if 3600 < 0 + 3600 then
            some (some (NodeResult.endCall "completed" 120 "success")) else none) :=
  ⟨rfl,
    execute_success_caches db1 [] "w1" "n2" "u" [] 0 3600
      (some (NodeResult.endCall "completed" 120 "success")) rfl⟩

/-- C9: a node of unrecognized type still reaches the cache write: its
no-op success overwrites the ResultCache entry for that node ID with
the empty (None) payload and TTL 3600, and the Complete event carries
that empty result — a previously cached real result is replaced. -/
theorem execute_unknown_type_cache_overwrite (db : List Workflow) (cache : Cache)
    (wid nid uuid : String) (inp : List (String × Value)) (now : Nat)
    (w : Workflow) (node : Node)
    (hw : findWorkflow db wid = some w) (hn : findNode w nid = some node)
    (h1 : node.type ≠ "startCall") (h2 : node.type ≠ "playAudio")
    (h3 : node.type ≠ "aiNode") (h4 : node.type ≠ "endCall") :
    (execute_node db cache wid nid inp uuid now).cache
      = setex cache ("node_result:" ++ nid) 3600 none now ∧
    cacheLookup (execute_node db cache wid nid inp uuid now).cache
        ("node_result:" ++ nid) = some (none, now + 3600) ∧
    (execute_node db cache wid nid inp uuid now).events
      = [Event.start wid nid "running",
         Event.complete wid nid "completed" none] := by
  have hrun : runExecutor node.type node.data inp uuid = Except.ok (none, 0) := by
    simp [runExecutor, h1, h2, h3, h4]
  refine ⟨?_, ?_, ?_⟩ <;>
    simp [execute_node, hw, hn, hrun, cacheLookup_setex]

/-- Witness for C9: executing the fixture "mysteryType" node over a
cache that holds a real prior result for its key replaces that entry
with the empty payload. -/
theorem execute_unknown_type_cache_overwrite_witness :
    (findWorkflow db1 "w1" = some wf1 ∧ findNode wf1 "n5" = some nodeMystery ∧
      nodeMystery.type ≠ "startCall" ∧ nodeMystery.type ≠ "playAudio" ∧
      nodeMystery.type ≠ "aiNode" ∧ nodeMystery.type ≠ "endCall") ∧
    ((execute_node db1
          [("node_result:n5", (some (NodeResult.endCall "completed" 120 "success"), 9999))]
          "w1" "n5" [] "u" 0).cache
        = setex [("node_result:n5",
            (some (NodeResult.endCall "completed" 120 "success"), 9999))]
            "node_result:n5" 3600 none 0 ∧
      cacheLookup (execute_node db1
          [("node_result:n5", (some (NodeResult.endCall "completed" 120 "success"), 9999))]
          "w1" "n5" [] "u" 0).cache "node_result:n5" = some (none, 0 + 3600) ∧
      (execute_node db1
          [("node_result:n5", (some (NodeResult.endCall "completed" 120 "success"), 9999))]
          "w1" "n5" [] "u" 0).events
        = [Event.start "w1" "n5" "running",
           Event.complete "w1" "n5" "completed" none]) :=
  ⟨⟨rfl, rfl, by decide, by decide, by decide, by decide⟩,
    execute_unknown_type_cache_overwrite db1
      [("node_result:n5", (some (NodeResult.endCall "completed" 120 "success"), 9999))]
      "w1" "n5" "u" [] 0 wf1 nodeMystery rfl rfl
      (by decide) (by decide) (by decide) (by decide)⟩

/-- C10: an aiNode whose config holds a falsy flowId value (empty
string, 0, False or None) behaves exactly as if the key were absent:
the executor returns the same failure as on the flowId-stripped config,
and Execute fails with "No flow ID specified for AI Node", publishes
Start then Error, and leaves the cache unchanged. -/
theorem execute_aiNode_falsy_flowId (db : List Workflow) (cache : Cache)
    (wid nid uuid : String) (inp : List (String × Value)) (now : Nat)
    (w : Workflow) (node : Node) (v : Value)
    (hw : findWorkflow db wid = some w) (hn : findNode w nid = some node)
    (ht : node.type = "aiNode")
    (hv : dictGetOpt node.data "flowId" = some v)
    (hfalsy : Value.truthy v = false) :
    runExecutor node.type node.data inp uuid
      = runExecutor node.type (stripKey node.data "flowId") inp uuid ∧
    (execute_node db cache wid nid inp uuid now).outcome
      = Outcome.fail "No flow ID specified for AI Node" ∧
    (execute_node db cache wid nid inp uuid now).events
      = [Event.start wid nid "running",
         Event.error wid nid "error" "No flow ID specified for AI Node"] ∧
    (execute_node db cache wid nid inp uuid now).cache = cache := by
  have hrun : runExecutor node.type node.data inp uuid
      = Except.error "No flow ID specified for AI Node" := by
    rw [ht]
    simp [runExecutor, hv, hfalsy]
  have hrun2 : runExecutor node.type (stripKey node.data "flowId") inp uuid
      = Except.error "No flow ID specified for AI Node" := by
    rw [ht]
    simp [runExecutor, dictGetOpt_stripKey, Value.truthy]
  refine ⟨hrun.trans hrun2.symm, ?_, ?_, ?_⟩ <;>
    simp [execute_node, hw, hn, hrun]

/-- Witness for C10: the fixture aiNode whose flowId is the empty
string fails exactly like the aiNode lacking the key. -/
theorem execute_aiNode_falsy_flowId_witness :
    (findWorkflow db1 "w1" = some wf1 ∧ findNode wf1 "n4" = some nodeAiEmpty ∧
      nodeAiEmpty.type = "aiNode" ∧
      dictGetOpt nodeAiEmpty.data "flowId" = some (Value.vStr "") ∧
      Value.truthy (Value.vStr "") = false) ∧
    (runExecutor nodeAiEmpty.type nodeAiEmpty.data [] "u"
        = runExecutor nodeAiEmpty.type (stripKey nodeAiEmpty.data "flowId") [] "u" ∧
      (execute_node db1 [] "w1" "n4" [] "u" 0).outcome
        = Outcome.fail "No flow ID specified for AI Node" ∧
      (execute_node db1 [] "w1" "n4" [] "u" 0).events
        = [Event.start "w1" "n4" "running",
           Event.error "w1" "n4" "error" "No flow ID specified for AI Node"] ∧
      (execute_node db1 [] "w1" "n4" [] "u" 0).cache = []) :=
  ⟨⟨rfl, rfl, rfl, rfl, rfl⟩,
    execute_aiNode_falsy_flowId db1 [] "w1" "n4" "u" [] 0 wf1 nodeAiEmpty
      (Value.vStr "") rfl rfl rfl rfl rfl⟩

/-- C7 counterexample: disconnect is not idempotent.  With workflow
"w1" holding the single handle 7, the first disconnect succeeds and
leaves the (never-deleted) entry with an empty list; the second
disconnect of the same handle finds the key still present and
`list.remove` raises ValueError instead of being a no-op. -/
theorem disconnect_not_idempotent :
    disconnect [("w1", [7])] 7 "w1" = Except.ok [("w1", ([] : List Nat))] ∧
    disconnect [("w1", ([] : List Nat))] 7 "w1"
      = Except.error "ValueError: list.remove(x): x not in list" := by
  constructor <;> rfl

/-- C7 amended: disconnect is a no-op (registry unchanged, no error)
only when the workflow ID has no entry in the registry at all; when the
entry is present — and it is never deleted, even once emptied — a
disconnect of a handle not in its list raises ValueError, so a second
disconnect of an already-removed handle fails rather than repeating the
single-disconnect state. -/
theorem disconnect_amended (reg : Registry) (ws : Nat) (wid : String) :
    (lookupReg reg wid = none → disconnect reg ws wid = Except.ok reg) ∧
    (∀ subs : List Nat, lookupReg reg wid = some subs → ws ∉ subs →
      disconnect reg ws wid
        = Except.error "ValueError: list.remove(x): x not in list") := by
  constructor
  · intro h
    simp [disconnect, h]
  · intro subs hsubs hmem
    simp [disconnect, hsubs, listRemove, hmem]

/-- Witness for the amended C7: a no-op on the empty registry, and the
ValueError on a present-but-emptied entry. -/
theorem disconnect_amended_witness :
    disconnect [] 7 "w1" = Except.ok [] ∧
    disconnect [("w1", ([] : List Nat))] 7 "w1"
      = Except.error "ValueError: list.remove(x): x not in list" :=
  ⟨(disconnect_amended [] 7 "w1").1 rfl,
    (disconnect_amended [("w1", ([] : List Nat))] 7 "w1").2 [] rfl (by decide)⟩

/-- C8: in the timed model of the sequential fanout loop of
`broadcast_to_workflow`, a slow subscriber does block the others and
the publisher.  With two subscribers whose send times are 100 and 0,
the publisher resumes only at time 100 and the second subscriber's
delivery completes at time 100; with both sends instantaneous, both
happen at time 0 — so both the publisher's latency and a later
subscriber's delivery depend on the first subscriber's consumption
speed, and there is no bounded queue or drop policy anywhere in the
loop. -/
theorem broadcast_blocks_on_slow_subscriber :
    broadcastFinishTime [100, 0] = 100 ∧ broadcastFinishTime [0, 0] = 0 ∧
    broadcastDeliveryTime [100, 0] 1 = 100 ∧
    broadcastDeliveryTime [0, 0] 1 = 0 := by
  refine ⟨?_, ?_, ?_, ?_⟩ <;> rfl

end CallFlow
